import Mathlib

/-
  Verification of the titlebar widget
  (src/vs/workbench/browser/parts/titlebar/titlebarPart.ts).

  The widget is embedded shallowly: pure helpers become Lean functions,
  the mutable fields of the TitlebarPart class become explicit state
  records, and each event handler becomes a state-transition function.
  External collaborator services (editor service, workspace service,
  environment service, integrity service, theme service) are modelled as
  inputs to those functions, matching how the source reads them.
-/

namespace TitlebarSpec

/-! ## Path helpers -/

/-- Modelled from the spec: the module vs/base/common/paths is not under
src; the spec (section 4.3) describes splitting the represented path into
segments and taking base names and parent-directory names, with a slash
separator. -/
def sep : String := "/"

/-- Modelled from the spec: split a character list at every separator
character, like the JavaScript String.split used on the represented file
name. An empty input yields one empty segment. -/
def splitChars (sepc : Char) : List Char → List (List Char)
  | [] => [[]]
  | c :: rest =>
    let r := splitChars sepc rest
    if c = sepc then [] :: r
    else
      match r with
      | s :: ss => (c :: s) :: ss
      | [] => [[c]]

/-- Split a path string on the slash separator. -/
def splitPath (p : String) : List String :=
  (splitChars '/' p.data).map fun cs => String.mk cs

/-- Modelled from the spec: join segments with a separator, like the
JavaScript Array.join. -/
def joinWith (s : String) : List String → String
  | [] => ""
  | [x] => x
  | x :: y :: xs => x ++ s ++ joinWith s (y :: xs)

/-- Modelled from the spec: base name of a path is its last slash-separated
segment (empty for a path ending in a slash). -/
def basename (p : String) : String :=
  (splitPath p).getLastD ""

/-- Modelled from the spec: directory name of a path is everything before
the last slash; the root directory stays the separator, and a path without
a slash has directory dot. -/
def dirname (p : String) : String :=
  let parts := splitPath p
  if parts.length ≤ 1 then "."
  else
    let d := joinWith "/" parts.dropLast
    if d = "" then "/" else d

/-! ## Context menu (getContextMenuActions, titlebarPart.ts lines 300 to 325) -/

/-- One context-menu action: the path handed to showItemInFolder and the
displayed label. -/
structure MenuAction where
  path : String
  label : String
deriving DecidableEq

/-- Translation of TitlebarPart.getContextMenuActions. The represented
file name is a string, with the empty string standing for the unset
(falsy) field. The loop runs i from segments.length down to 1; for a
segment that is not the file name the path offset is raised by one so the
folder itself gets opened, and an empty label falls back to the
separator. -/
def getContextMenuActions (representedFileName : String) : List MenuAction :=
  if representedFileName = "" then []
  else
    let segments := splitPath representedFileName
    (List.range segments.length).map fun k =>
      let i := segments.length - k
      let isFile := i = segments.length
      let pathOffset := if isFile then i else i + 1
      let path := joinWith sep (segments.take pathOffset)
      let label0 := if isFile then basename path else basename (dirname path)
      let label := if label0 = "" then sep else label0
      MenuAction.mk path label

/-! ## Template resolver -/

/-- A substitution value handed to the template resolver: either a plain
string or a separator value carrying a label. -/
inductive TValue where
  | str (s : String)
  | sepv (label : String)
deriving DecidableEq

/-- Kind of a parsed template segment. -/
inductive SegType where
  | text
  | varSeg
  | sepSeg
deriving DecidableEq

/-- A parsed template segment: its rendered value and its kind. -/
structure Segment where
  value : String
  type : SegType
deriving DecidableEq

/-- The opening brace character of a placeholder. -/
def lbrace : Char := Char.ofNat 123

/-- The closing brace character of a placeholder. -/
def rbrace : Char := Char.ofNat 125

/-- Modelled from the spec: the template resolver of vs/base/common/labels
is not under src. Following the spec (section 4.1), the template is
scanned left to right; each placeholder occurrence between braces is
replaced by its mapped value, an unmatched placeholder resolves to the
empty string, an empty plain value contributes nothing, and a separator
value is not pushed twice in a row. An unclosed trailing placeholder is
dropped. -/
def scanTemplate (vals : String → Option TValue) :
    List Char → Bool → List Char → List Segment → List Segment
  | [], inVar, curVal, acc =>
    if curVal ≠ [] ∧ inVar = false then acc ++ [⟨String.mk curVal, SegType.text⟩] else acc
  | c :: rest, inVar, curVal, acc =>
    if c = lbrace ∧ inVar = false then
      let acc1 := if curVal ≠ [] then acc ++ [⟨String.mk curVal, SegType.text⟩] else acc
      scanTemplate vals rest true [] acc1
    else if c = rbrace ∧ inVar = true then
      let acc1 :=
        match vals (String.mk curVal) with
        | some (TValue.str s) => if s ≠ "" then acc ++ [⟨s, SegType.varSeg⟩] else acc
        | some (TValue.sepv l) =>
          match acc.getLast? with
          | some last => if last.type = SegType.sepSeg then acc else acc ++ [⟨l, SegType.sepSeg⟩]
          | none => acc ++ [⟨l, SegType.sepSeg⟩]
        | none => acc
      scanTemplate vals rest false [] acc1
    else
      scanTemplate vals rest inVar (curVal ++ [c]) acc

/-- Modelled from the spec: a separator segment is kept only when both its
neighbours exist and are nonempty substitution values, so the output never
carries a leading, trailing or doubled separator. -/
def sepAllowed (segs : List Segment) (i : Nat) : Bool :=
  match i with
  | 0 => false
  | Nat.succ j =>
    match segs[j]?, segs[j + 2]? with
    | some left, some right =>
      left.type == SegType.varSeg && left.value != "" &&
        right.type == SegType.varSeg && right.value != ""
    | _, _ => false

/-- Render the parsed segments, dropping orphaned separators. -/
def renderSegs (segs : List Segment) : String :=
  String.join ((List.range segs.length).filterMap fun i =>
    match segs[i]? with
    | some seg =>
      if seg.type == SegType.sepSeg then
        if sepAllowed segs i then some seg.value else none
      else some seg.value
    | none => none)

/-- Modelled from the spec: resolve a template against a substitution
mapping (section 4.1 of the spec). -/
def template (tmpl : String) (vals : String → Option TValue) : String :=
  renderSegs (scanTemplate vals tmpl.data false [] [])

/-! ## Title composition (doGetWindowTitle and getWindowTitle,
titlebarPart.ts lines 159 to 224) -/

/-- The titles an active editor input reports at the three verbosity
levels, together with its dirty flag. -/
structure EditorInputInfo where
  titleShort : String
  titleMedium : String
  titleLong : String
  isDirty : Bool
deriving DecidableEq

/-- The workspace folder that applies to the window, after the source has
picked either the single root folder or the folder of the active file:
its file-system path and its display label. -/
structure FolderInfo where
  fsPath : String
  pathLabel : String
deriving DecidableEq

/-- Everything getWindowTitle reads: the stored template and the values
the collaborator services report at the moment of the call. -/
@[ext]
structure TitleState where
  titleTemplate : String
  input : Option EditorInputInfo
  workspaceName : String
  workspaceRootLabel : Option String
  folder : Option FolderInfo
  appNameLong : String
  isPure : Bool
  isExtensionDevelopment : Bool
deriving DecidableEq

/-- Fixed suffix marker for a tampered installation. -/
def NLS_UNSUPPORTED : String := "[Unsupported]"

/-- Fixed prefix marker for an extension development host window. -/
def NLS_EXTENSION_HOST : String := "[Extension Development Host]"

/-- Dirty indicator (a filled circle and a space). -/
def TITLE_DIRTY : String := "● "

/-- Separator between title parts. -/
def TITLE_SEPARATOR : String := " — "

/-- The named substitution values computed by doGetWindowTitle. Every
field is a total string: absent editor or folder values become the empty
string here and are never passed on as missing values. -/
structure SubstRecord where
  activeEditorShort : String
  activeEditorMedium : String
  activeEditorLong : String
  rootName : String
  rootPath : String
  folderName : String
  folderPath : String
  dirty : String
  appName : String
  separator : String
deriving DecidableEq

/-- Translation of the variable block of doGetWindowTitle (lines 200 to
210): each ternary on the possibly absent input or folder becomes a match
on an option. -/
def computeSubst (s : TitleState) : SubstRecord :=
  let activeEditorShort :=
    match s.input with
    | some i => i.titleShort
    | none => ""
  let activeEditorMedium :=
    match s.input with
    | some i => i.titleMedium
    | none => activeEditorShort
  let activeEditorLong :=
    match s.input with
    | some i => i.titleLong
    | none => activeEditorMedium
  let rootName := s.workspaceName
  let rootPath := s.workspaceRootLabel.getD ""
  let folderName :=
    match s.folder with
    | some f => if basename f.fsPath = "" then f.fsPath else basename f.fsPath
    | none => ""
  let folderPath :=
    match s.folder with
    | some f => f.pathLabel
    | none => ""
  let dirty :=
    match s.input with
    | some i => if i.isDirty then TITLE_DIRTY else ""
    | none => ""
  { activeEditorShort, activeEditorMedium, activeEditorLong, rootName, rootPath,
    folderName, folderPath, dirty, appName := s.appNameLong, separator := TITLE_SEPARATOR }

/-- The mapping handed to the template resolver: the ten documented
placeholder names, the separator wrapped as a separator value, everything
else unmatched. -/
def substLookup (r : SubstRecord) : String → Option TValue := fun name =>
  if name = "activeEditorShort" then some (TValue.str r.activeEditorShort)
  else if name = "activeEditorLong" then some (TValue.str r.activeEditorLong)
  else if name = "activeEditorMedium" then some (TValue.str r.activeEditorMedium)
  else if name = "rootName" then some (TValue.str r.rootName)
  else if name = "rootPath" then some (TValue.str r.rootPath)
  else if name = "folderName" then some (TValue.str r.folderName)
  else if name = "folderPath" then some (TValue.str r.folderPath)
  else if name = "dirty" then some (TValue.str r.dirty)
  else if name = "appName" then some (TValue.str r.appName)
  else if name = "separator" then some (TValue.sepv r.separator)
  else none

/-- Translation of doGetWindowTitle (lines 191 to 224): resolve the
stored template against the computed substitution values. -/
def doGetWindowTitle (s : TitleState) : String :=
  template s.titleTemplate (substLookup (computeSubst s))

/-- The base title of getWindowTitle before the integrity and
extension-development decorations: the resolved template, or the long
application name when the resolved template is empty (falsy). -/
def baseWindowTitle (s : TitleState) : String :=
  let t := doGetWindowTitle s
  if t = "" then s.appNameLong else t

/-- Translation of getWindowTitle (lines 159 to 175): fall back to the
application name on an empty title, append the unsupported marker when
the integrity check failed, and finally put the extension development
host marker in front. -/
def getWindowTitle (s : TitleState) : String :=
  let title1 := baseWindowTitle s
  let title2 := if s.isPure then title1 else title1 ++ " " ++ NLS_UNSUPPORTED
  if s.isExtensionDevelopment then NLS_EXTENSION_HOST ++ " - " ++ title2 else title2

/-! ## Display state (setTitle, lines 327 to 338, and createContentArea,
lines 226 to 263) -/

/-- The display-facing state of the widget: the text of the window-title
element once it exists (none before createContentArea ran), the buffered
pending title, and the native document title. The pending title is an
option because the field starts out unset. -/
structure DisplayState where
  titleElem : Option String
  pendingTitle : Option String
  docTitle : String
deriving DecidableEq

/-- Translation of setTitle: always write the native document title, then
update the element text when the element exists, else buffer the value in
the pending title. -/
def setTitle (d : DisplayState) (t : String) : DisplayState :=
  let d1 : DisplayState := { d with docTitle := t }
  match d1.titleElem with
  | some _ => { d1 with titleElem := some t }
  | none => { d1 with pendingTitle := some t }

/-- Translation of the title handling in createContentArea: a fresh empty
title element is created, and the pending title is applied to it when it
is set and truthy (a buffered empty string is falsy and is skipped, which
leaves the fresh element empty, the same text). -/
def createContentArea (d : DisplayState) : DisplayState :=
  let d1 : DisplayState := { d with titleElem := some "" }
  match d.pendingTitle with
  | some p => if p = "" then d1 else { d1 with titleElem := some p }
  | none => d1

/-- The operations that touch the display state. -/
inductive DisplayOp where
  | set (t : String)
  | create
deriving DecidableEq

/-- Run one display operation. -/
def stepDisplay (d : DisplayState) : DisplayOp → DisplayState
  | DisplayOp.set t => setTitle d t
  | DisplayOp.create => createContentArea d

/-- Run a list of display operations from left to right. -/
def runDisplay (d : DisplayState) (ops : List DisplayOp) : DisplayState :=
  ops.foldl stepDisplay d

/-- The state of a freshly constructed widget: no element, nothing
pending, empty document title. -/
def initDisplay : DisplayState := ⟨none, none, ""⟩

/-- The title the widget displays: the element text once the element
exists, else the buffered value that will be flushed into it. -/
def displayedTitle (d : DisplayState) : String :=
  match d.titleElem with
  | some t => t
  | none => d.pendingTitle.getD ""

/-- The argument of the last setTitle operation in a list, if any. -/
def lastSetArg : List DisplayOp → Option String
  | [] => none
  | op :: rest =>
    match lastSetArg rest with
    | some t => some t
    | none =>
      match op with
      | DisplayOp.set t => some t
      | DisplayOp.create => none

/-- How many createContentArea operations a list contains; the framework
calls createContentArea exactly once in the widget lifecycle. -/
def createCount : List DisplayOp → Nat
  | [] => 0
  | DisplayOp.create :: rest => createCount rest + 1
  | DisplayOp.set _ :: rest => createCount rest

/-! ## Configuration changes (onConfigurationChanged, lines 126 to 133) -/

/-- The part of the widget state onConfigurationChanged touches: the
service-supplied title inputs (which hold the stored template) and the
display state. -/
structure PartState where
  env : TitleState
  display : DisplayState
deriving DecidableEq

/-- Translation of onConfigurationChanged: remember the current template,
store the looked-up configuration value, and only when called with the
update flag and the value actually changed recompute and set the title. -/
def onConfigurationChanged (p : PartState) (update : Bool) (configValue : String) : PartState :=
  let currentTitleTemplate := p.env.titleTemplate
  let p1 : PartState := { p with env := { p.env with titleTemplate := configValue } }
  if update = true ∧ currentTitleTemplate ≠ configValue then
    { p1 with display := setTitle p1.display (getWindowTitle p1.env) }
  else p1

/-! ## Active editor listeners (onEditorsChanged, lines 135 to 157) -/

/-- The two listener kinds attached to the active editor input. -/
inductive LKind where
  | dirtyChanged
  | labelChanged
deriving DecidableEq

/-- One listener registration: the editor it belongs to (as a number), its
kind, and whether it has been disposed. -/
structure ListenerRec where
  owner : Nat
  kind : LKind
  disposed : Bool
deriving DecidableEq

/-- Dispose a whole batch of listeners, as the dispose call on the
activeEditorListeners array does. -/
def disposeAll (ls : List ListenerRec) : List ListenerRec :=
  ls.map fun l => { l with disposed := true }

/-- Translation of onEditorsChanged, restricted to the listener
bookkeeping: first every current listener is disposed and the array is
emptied, then, when an editor input is active, a fresh dirty listener and
a fresh label listener for it are attached. The state tracks every
listener ever created so that the dispose-before-attach order is
observable. -/
def onEditorsChanged (ls : List ListenerRec) (activeInput : Option Nat) : List ListenerRec :=
  let ls1 := disposeAll ls
  match activeInput with
  | some e => ls1 ++ [⟨e, LKind.dirtyChanged, false⟩, ⟨e, LKind.labelChanged, false⟩]
  | none => ls1

/-- The listeners that are still alive (not disposed): these are exactly
the content of the activeEditorListeners array. -/
def liveListeners (ls : List ListenerRec) : List ListenerRec :=
  ls.filter fun l => !l.disposed

/-- The listeners that should be alive for a given active input: the
dirty and label listeners of the current editor, or none. -/
def expectedListeners : Option Nat → List ListenerRec
  | some e => [⟨e, LKind.dirtyChanged, false⟩, ⟨e, LKind.labelChanged, false⟩]
  | none => []

/-! ## Focus and styles (onBlur and onFocus, lines 108 to 116, and
updateStyles, lines 265 to 277) -/

/-- The theme colors the styling reads; each lookup may come back
undefined. -/
structure Theme where
  activeForeground : Option String
  inactiveForeground : Option String
  activeBackground : Option String
  inactiveBackground : Option String
  titleBorder : Option String
deriving DecidableEq

/-- The three style properties updateStyles writes on the container. -/
structure StyleProps where
  color : Option String
  backgroundColor : Option String
  borderBottom : Option String
deriving DecidableEq

/-- The colors updateStyles computes for a given focus state: inactive
picks the inactive foreground and background, active the active ones, and
the bottom border is set only when the theme has a border color. -/
def computeStyles (theme : Theme) (isInactive : Bool) : StyleProps :=
  { color := if isInactive then theme.inactiveForeground else theme.activeForeground
    backgroundColor := if isInactive then theme.inactiveBackground else theme.activeBackground
    borderBottom :=
      match theme.titleBorder with
      | some c => some ("1px solid " ++ c)
      | none => none }

/-- The focus-relevant state: the inactive flag and the styles of the
container element when it exists. -/
structure FocusState where
  isInactive : Bool
  containerStyle : Option StyleProps
deriving DecidableEq

/-- The initial focus state: the inactive field starts unset (falsy), so
the widget starts active; the container does not exist yet. -/
def initFocusState : FocusState := { isInactive := false, containerStyle := none }

/-- Translation of updateStyles: when the container exists, recompute the
three colors from the theme and the inactive flag and apply them. -/
def updateStyles (theme : Theme) (st : FocusState) : FocusState :=
  match st.containerStyle with
  | some _ => { st with containerStyle := some (computeStyles theme st.isInactive) }
  | none => st

/-- Translation of onBlur: set the inactive flag, then update styles. -/
def onBlur (theme : Theme) (st : FocusState) : FocusState :=
  updateStyles theme { st with isInactive := true }

/-- Translation of onFocus: clear the inactive flag, then update
styles. -/
def onFocus (theme : Theme) (st : FocusState) : FocusState :=
  updateStyles theme { st with isInactive := false }

/-! ## Concrete example states used by the witnesses -/

/-- A concrete title state: empty template, no editor, no folder. -/
def exEmptyTitleState : TitleState :=
  { titleTemplate := ""
    input := none
    workspaceName := ""
    workspaceRootLabel := none
    folder := none
    appNameLong := "Editor"
    isPure := true
    isExtensionDevelopment := false }

/-- A concrete theme for the style witnesses. -/
def exTheme : Theme :=
  { activeForeground := some "fgActive"
    inactiveForeground := some "fgInactive"
    activeBackground := some "bgActive"
    inactiveBackground := some "bgInactive"
    titleBorder := some "borderColor" }

/-- A concrete focus state whose container exists. -/
def exFocus : FocusState :=
  { isInactive := false, containerStyle := some (computeStyles exTheme false) }

/-- A concrete part state for the configuration witness. -/
def exPart : PartState :=
  { env := exEmptyTitleState
    display := { titleElem := some "old", pendingTitle := none, docTitle := "old" } }

/-! ## Helper lemmas -/

theorem lastSetArg_concat_set (l : List DisplayOp) (u : String) :
    lastSetArg (l ++ [DisplayOp.set u]) = some u := by
  induction l with
  | nil => rfl
  | cons op rest ih => simp [lastSetArg, ih]

theorem lastSetArg_concat_create (l : List DisplayOp) :
    lastSetArg (l ++ [DisplayOp.create]) = lastSetArg l := by
  induction l with
  | nil => rfl
  | cons op rest ih => simp [lastSetArg, ih]

theorem createCount_concat_set (l : List DisplayOp) (u : String) :
    createCount (l ++ [DisplayOp.set u]) = createCount l := by
  induction l with
  | nil => rfl
  | cons op rest ih => cases op <;> simp [createCount, ih]

theorem createCount_concat_create (l : List DisplayOp) :
    createCount (l ++ [DisplayOp.create]) = createCount l + 1 := by
  induction l with
  | nil => rfl
  | cons op rest ih => cases op <;> simp [createCount, ih]

theorem setTitle_of_none (d : DisplayState) (t : String) (h : d.titleElem = none) :
    setTitle d t = ⟨none, some t, t⟩ := by
  simp [setTitle, h]

theorem displayedTitle_setTitle (d : DisplayState) (t : String) :
    displayedTitle (setTitle d t) = t ∧ (setTitle d t).docTitle = t := by
  cases hd : d.titleElem <;> simp [setTitle, displayedTitle, hd]

theorem createContentArea_flush (d : DisplayState) (t : String) (h : d.pendingTitle = some t) :
    displayedTitle (createContentArea d) = t ∧ (createContentArea d).docTitle = d.docTitle := by
  by_cases ht : t = "" <;> simp [createContentArea, displayedTitle, h, ht]

theorem runDisplay_noCreate (ops : List DisplayOp) :
    ∀ d : DisplayState, createCount ops = 0 → d.titleElem = none →
      (runDisplay d ops).titleElem = none ∧
        (runDisplay d ops).docTitle =
          (match lastSetArg ops with | some t => t | none => d.docTitle) ∧
        (runDisplay d ops).pendingTitle =
          (match lastSetArg ops with | some t => some t | none => d.pendingTitle) := by
  induction ops with
  | nil =>
    intro d _ he
    exact ⟨he, rfl, rfl⟩
  | cons op rest ih =>
    intro d hc he
    cases op with
    | create => simp [createCount] at hc
    | set u =>
      have hc2 : createCount rest = 0 := by simpa [createCount] using hc
      have hstep : runDisplay d (DisplayOp.set u :: rest) = runDisplay (setTitle d u) rest := rfl
      rw [hstep, setTitle_of_none d u he]
      have ihh := ih ⟨none, some u, u⟩ hc2 rfl
      refine ⟨ihh.1, ?_, ?_⟩
      · rw [ihh.2.1]
        cases hl : lastSetArg rest <;> simp [lastSetArg, hl]
      · rw [ihh.2.2]
        cases hl : lastSetArg rest <;> simp [lastSetArg, hl]

theorem liveListeners_disposeAll (ls : List ListenerRec) :
    liveListeners (disposeAll ls) = [] := by
  simp [disposeAll, liveListeners]

theorem liveListeners_step (ls : List ListenerRec) (input : Option Nat) :
    liveListeners (onEditorsChanged ls input) = expectedListeners input := by
  have h2 : List.filter (fun l => !l.disposed) (disposeAll ls) = [] :=
    liveListeners_disposeAll ls
  cases input with
  | none => simpa [onEditorsChanged, expectedListeners] using liveListeners_disposeAll ls
  | some e =>
    simp [onEditorsChanged, expectedListeners, liveListeners, List.filter_append, h2]

/-! ## Claim theorems -/

/-- C1 counterexample: for represented path /a/b/c.txt the context menu
does not hold exactly three actions with paths /a/b/c.txt, /a/b, /a; the
loop runs once per split segment, and the leading slash contributes an
empty first segment, so four actions come out, and the action of a
non-file segment carries the path one segment deeper than the folder it
opens. -/
theorem getContextMenuActions_claim_false :
    ¬ ((getContextMenuActions "/a/b/c.txt").length = 3 ∧
      (getContextMenuActions "/a/b/c.txt").map MenuAction.path = ["/a/b/c.txt", "/a/b", "/a"]) := by
  decide

/-- C1 amended: for represented path /a/b/c.txt the context menu holds
exactly four actions, ordered deepest first, labelled c.txt, b, a and the
separator, whose showItemInFolder paths are /a/b/c.txt, /a/b/c.txt, /a/b
and /a (a non-file segment passes the path one segment deeper so the OS
reveals that entry inside the target folder); an empty represented path
yields the empty action list. -/
theorem getContextMenuActions_actual :
    getContextMenuActions "/a/b/c.txt" =
      [⟨"/a/b/c.txt", "c.txt"⟩, ⟨"/a/b/c.txt", "b"⟩, ⟨"/a/b", "a"⟩, ⟨"/a", "/"⟩] ∧
      getContextMenuActions "" = [] := by
  decide

/-- C2: whenever the resolved template is the empty string, the base
title (before the unsupported and extension-development decorations) is
the long application name; in particular, with the integrity flag pure
and outside an extension development host, getWindowTitle returns the
application name itself. -/
theorem getWindowTitle_empty_fallback (s : TitleState) (h : doGetWindowTitle s = "") :
    baseWindowTitle s = s.appNameLong ∧
      (s.isPure = true → s.isExtensionDevelopment = false →
        getWindowTitle s = s.appNameLong) := by
  have hb : baseWindowTitle s = s.appNameLong := by simp [baseWindowTitle, h]
  refine ⟨hb, fun hp hd => ?_⟩
  simp [getWindowTitle, hb, hp, hd]

/-- C2 witness: the empty template with application name Editor yields
the title Editor. -/
theorem getWindowTitle_empty_fallback_witness :
    getWindowTitle exEmptyTitleState = "Editor" :=
  (getWindowTitle_empty_fallback exEmptyTitleState (by decide)).2 rfl rfl

/-- C3: getWindowTitle appends exactly one fixed unsupported suffix when
the integrity check reported not pure, prepends exactly one fixed
extension-development-host marker when running as a development host, and
applies the suffix before the prefix, so with both flags the prefix is
outermost. -/
theorem getWindowTitle_decorations (s : TitleState) :
    getWindowTitle s =
      (if s.isExtensionDevelopment then
        (if s.isPure then NLS_EXTENSION_HOST ++ " - " ++ baseWindowTitle s
          else NLS_EXTENSION_HOST ++ " - " ++ (baseWindowTitle s ++ " " ++ NLS_UNSUPPORTED))
        else
        (if s.isPure then baseWindowTitle s
          else baseWindowTitle s ++ " " ++ NLS_UNSUPPORTED)) := by
  cases hp : s.isPure <;> cases hd : s.isExtensionDevelopment <;>
    simp [getWindowTitle, hp, hd]

/-- C4: the displayed title always equals the argument of the most recent
setTitle operation, over any operation sequence in which the one-shot
createContentArea runs at most once; when it all happens before the
element exists, the value sits buffered in the pending title and is
flushed into the element by createContentArea. -/
theorem setTitle_last_write_wins (ops : List DisplayOp) (t : String)
    (hcount : createCount ops ≤ 1) (hlast : lastSetArg ops = some t) :
    displayedTitle (runDisplay initDisplay ops) = t ∧
      (runDisplay initDisplay ops).docTitle = t ∧
      (createCount ops = 0 →
        (runDisplay initDisplay ops).titleElem = none ∧
          (runDisplay initDisplay ops).pendingTitle = some t) := by
  rcases List.eq_nil_or_concat ops with rfl | ⟨l, a, rfl⟩
  · simp [lastSetArg] at hlast
  · simp only [List.concat_eq_append] at hcount hlast ⊢
    cases a with
    | set u =>
      have ht : u = t := Option.some.inj ((lastSetArg_concat_set l u).symm.trans hlast)
      subst ht
      have hrun : runDisplay initDisplay (l ++ [DisplayOp.set u]) =
          setTitle (runDisplay initDisplay l) u := by
        simp [runDisplay, List.foldl_append, stepDisplay]
      rw [hrun]
      obtain ⟨h1, h2⟩ := displayedTitle_setTitle (runDisplay initDisplay l) u
      refine ⟨h1, h2, fun hc0 => ?_⟩
      have hcl : createCount l = 0 := by
        rw [createCount_concat_set] at hc0; exact hc0
      obtain ⟨he, -, -⟩ := runDisplay_noCreate l initDisplay hcl rfl
      rw [setTitle_of_none _ u he]
      exact ⟨rfl, rfl⟩
    | create =>
      have hlast2 : lastSetArg l = some t := by
        rw [lastSetArg_concat_create] at hlast; exact hlast
      have hcl : createCount l = 0 := by
        rw [createCount_concat_create] at hcount; omega
      have hrun : runDisplay initDisplay (l ++ [DisplayOp.create]) =
          createContentArea (runDisplay initDisplay l) := by
        simp [runDisplay, List.foldl_append, stepDisplay]
      obtain ⟨he, hdoc, hpend⟩ := runDisplay_noCreate l initDisplay hcl rfl
      rw [hlast2] at hdoc hpend
      rw [hrun]
      obtain ⟨hda, hdb⟩ := createContentArea_flush (runDisplay initDisplay l) t hpend
      refine ⟨hda, ?_, fun hc0 => ?_⟩
      · rw [hdb, hdoc]
      · rw [createCount_concat_create] at hc0
        exact (Nat.succ_ne_zero _ hc0).elim

/-- C4 witness: setting a title, creating the content area and setting a
second title displays the second title. -/
theorem setTitle_last_write_wins_witness :
    displayedTitle (runDisplay initDisplay
      [DisplayOp.set "a", DisplayOp.create, DisplayOp.set "b"]) = "b" :=
  (setTitle_last_write_wins [DisplayOp.set "a", DisplayOp.create, DisplayOp.set "b"] "b"
    (by decide) (by decide)).1

/-- C5: after any nonempty sequence of editors-changed events, the live
(undisposed) listeners are exactly the dirty-changed and label-changed
listeners of the editor active in the last event, and every listener of
an earlier event has been disposed; disposal happens before the new
listeners are attached, so the fresh pair is never disposed. -/
theorem activeEditorListeners_exactly_current (switches : List (Option Nat))
    (x : Option Nat) (ls : List ListenerRec) (hlast : switches.getLast? = some x) :
    liveListeners (switches.foldl onEditorsChanged ls) = expectedListeners x := by
  induction switches generalizing ls with
  | nil => simp at hlast
  | cons s rest ih =>
    cases rest with
    | nil =>
      simp at hlast
      subst hlast
      simpa using liveListeners_step ls s
    | cons r rs =>
      rw [List.getLast?_cons_cons] at hlast
      simpa using ih (onEditorsChanged ls s) hlast

/-- C5 witness: switching to editor 1 and then to editor 2 leaves exactly
the two listeners of editor 2 alive. -/
theorem activeEditorListeners_exactly_current_witness :
    liveListeners ([some 1, some 2].foldl onEditorsChanged []) =
      [⟨2, LKind.dirtyChanged, false⟩, ⟨2, LKind.labelChanged, false⟩] :=
  activeEditorListeners_exactly_current [some 1, some 2] (some 2) [] (by decide)

/-- C6: getWindowTitle is a function of exactly the listed inputs: two
title states that agree on the template, the editor titles and dirty
flag, the workspace name and root label, the folder, the application
name, the integrity flag and the development-host flag produce the same
title string. -/
theorem getWindowTitle_deterministic (s1 s2 : TitleState)
    (h1 : s1.titleTemplate = s2.titleTemplate) (h2 : s1.input = s2.input)
    (h3 : s1.workspaceName = s2.workspaceName)
    (h4 : s1.workspaceRootLabel = s2.workspaceRootLabel)
    (h5 : s1.folder = s2.folder) (h6 : s1.appNameLong = s2.appNameLong)
    (h7 : s1.isPure = s2.isPure)
    (h8 : s1.isExtensionDevelopment = s2.isExtensionDevelopment) :
    getWindowTitle s1 = getWindowTitle s2 := by
  have hs : s1 = s2 := by
    ext <;> simp [h1, h2, h3, h4, h5, h6, h7, h8]
  rw [hs]

/-- C6 witness: two runs on the same concrete state agree. -/
theorem getWindowTitle_deterministic_witness :
    getWindowTitle exEmptyTitleState = getWindowTitle exEmptyTitleState :=
  getWindowTitle_deterministic exEmptyTitleState exEmptyTitleState
    rfl rfl rfl rfl rfl rfl rfl rfl

/-- C7: two independent conditionals on any state. With no active editor
input, the editor-derived substitution values (short, medium and long
titles and the dirty marker) are all the empty string; and, regardless of
the editor input, with no applicable folder the folder name and folder
path are the empty string. The substitution record is made of total
strings, so no missing value ever reaches the template resolver. -/
theorem substitutions_default_empty (s : TitleState) :
    (s.input = none →
      (computeSubst s).activeEditorShort = "" ∧
        (computeSubst s).activeEditorMedium = "" ∧
        (computeSubst s).activeEditorLong = "" ∧
        (computeSubst s).dirty = "") ∧
      (s.folder = none →
        (computeSubst s).folderName = "" ∧ (computeSubst s).folderPath = "") := by
  constructor
  · intro h
    exact ⟨by simp [computeSubst, h], by simp [computeSubst, h], by simp [computeSubst, h],
      by simp [computeSubst, h]⟩
  · intro hf
    exact ⟨by simp [computeSubst, hf], by simp [computeSubst, hf]⟩

/-- C7 witness: a state with an active editor input but no folder has
empty folder substitutions, and the empty state has empty editor
substitutions. -/
theorem substitutions_default_empty_witness :
    (computeSubst exEmptyTitleState).activeEditorShort = "" ∧
      (computeSubst { exEmptyTitleState with
        input := some ⟨"f.txt", "d/f.txt", "/d/f.txt", false⟩ }).folderName = "" :=
  ⟨((substitutions_default_empty exEmptyTitleState).1 rfl).1,
    ((substitutions_default_empty { exEmptyTitleState with
      input := some ⟨"f.txt", "d/f.txt", "/d/f.txt", false⟩ }).2 rfl).1⟩

/-- C8: the focus machine starts active (the inactive flag starts unset),
a blur event makes it inactive and a focus event makes it active, and on
each transition, when the container exists, its foreground, background
and border styles are recomputed from the theme for the current state. -/
theorem focus_style_machine :
    initFocusState.isInactive = false ∧
      ∀ (theme : Theme) (st : FocusState),
        (onBlur theme st).isInactive = true ∧
          (onFocus theme st).isInactive = false ∧
          (st.containerStyle ≠ none →
            (onBlur theme st).containerStyle = some (computeStyles theme true) ∧
              (onFocus theme st).containerStyle = some (computeStyles theme false)) := by
  refine ⟨rfl, fun theme st => ?_⟩
  cases hc : st.containerStyle <;>
    simp [onBlur, onFocus, updateStyles, hc]

/-- C8 witness: a blur on a state with an existing container applies the
inactive styles. -/
theorem focus_style_machine_witness :
    (onBlur exTheme exFocus).containerStyle = some (computeStyles exTheme true) :=
  ((focus_style_machine.2 exTheme exFocus).2.2 (by decide)).1

/-- C9: setTitle writes its argument to the native document title in
every case; when the display element is absent only the buffered pending
title changes, and when it exists the element text is updated and the
pending title is untouched. -/
theorem setTitle_sets_native_title (d : DisplayState) (t : String) :
    (setTitle d t).docTitle = t ∧
      (d.titleElem = none →
        (setTitle d t).titleElem = none ∧ (setTitle d t).pendingTitle = some t) ∧
      (∀ x, d.titleElem = some x →
        (setTitle d t).titleElem = some t ∧ (setTitle d t).pendingTitle = d.pendingTitle) := by
  cases hd : d.titleElem <;> simp [setTitle, hd]

/-- C9 witness: before the element exists, setTitle still writes the
native title and buffers the value. -/
theorem setTitle_sets_native_title_witness :
    (setTitle initDisplay "hello").docTitle = "hello" ∧
      (setTitle initDisplay "hello").pendingTitle = some "hello" :=
  ⟨(setTitle_sets_native_title initDisplay "hello").1,
    ((setTitle_sets_native_title initDisplay "hello").2.1 rfl).2⟩

/-- C10: when a configuration change reports a value equal to the stored
template, the template is overwritten with the equal value and the
display (element text, pending title and native title) is untouched; a
read without the update flag, as at construction, never touches the
display either. -/
theorem onConfigurationChanged_frame (p : PartState) (v : String) :
    (v = p.env.titleTemplate →
      (onConfigurationChanged p true v).display = p.display ∧
        (onConfigurationChanged p true v).env.titleTemplate = v) ∧
      (onConfigurationChanged p false v).display = p.display := by
  constructor
  · intro hv
    subst hv
    constructor <;> simp [onConfigurationChanged]
  · simp [onConfigurationChanged]

/-- C10 witness: a configuration change reporting the stored empty
template leaves the display untouched. -/
theorem onConfigurationChanged_frame_witness :
    (onConfigurationChanged exPart true "").display = exPart.display :=
  ((onConfigurationChanged_frame exPart "").1 rfl).1

end TitlebarSpec
